import Mathlib

/-!
Verification development for the Inteliome Metadata Validator.

We shallowly embed the repository code (src/validator/schema_validator.py,
src/validator/semantics_validator.py, src/exceptions, src/helpers) into Lean.

Modelling conventions:
* Parsed YAML documents become the inductive type `Val` (Python `None`, `bool`,
  `int`, `str`, `list`, `dict`).  Mapping keys are modelled as strings (all
  keys appearing in the repository documents are strings); a dict is an
  ordered association list, mirroring Python insertion order.  The loader
  (helpers/utils.py, `DuplicateKeyLoader`) rejects duplicate keys, so embedded
  dicts are assumed duplicate-free where it matters.
* Raised Python exceptions become the `Except PyErr` monad.  `PyErr` contains
  the four validation error classes of src/exceptions plus the builtin
  exceptions the code can raise (ValueError, TypeError, KeyError, IndexError,
  AttributeError).  Exception *payloads* are the constructor arguments of the
  corresponding Python exception classes; the f-string message rendering of
  the exception classes is not re-modelled (and decorative quotes inside
  messages are dropped), since no claim depends on message punctuation.
* Python `re` patterns are embedded as a small regular-expression datatype
  with Brzozowski-derivative matching.  Python `\w` and `\s` are modelled as
  their ASCII subsets, `$` as end-of-string (no claim exercises the unicode
  or trailing-newline corner cases), and `re.IGNORECASE` by ASCII
  case-insensitive character matching.
-/

/-- Embedded Python/YAML value. -/
inductive Val where
  | none
  | bool (b : Bool)
  | int (n : Int)
  | str (s : String)
  | list (xs : List Val)
  | dict (kvs : List (String × Val))

/-- Lookup in an association list (first binding wins, as in a Python dict
without duplicate keys). -/
def lookupKV : List (String × Val) → String → Option Val
  | [], _ => Option.none
  | (k, v) :: rest, key => if k == key then some v else lookupKV rest key

mutual

/-- Python `==` between embedded values (dict comparison is modelled
order-sensitively; the repository never compares dicts). -/
def Val.beq : Val → Val → Bool
  | .none, .none => true
  | .bool a, .bool b => a == b
  | .int a, .int b => a == b
  | .str a, .str b => a == b
  | .list a, .list b => Val.beqList a b
  | .dict a, .dict b => Val.beqPairs a b
  | _, _ => false

def Val.beqList : List Val → List Val → Bool
  | [], [] => true
  | x :: xs, y :: ys => Val.beq x y && Val.beqList xs ys
  | _, _ => false

def Val.beqPairs : List (String × Val) → List (String × Val) → Bool
  | [], [] => true
  | (k₁, v₁) :: xs, (k₂, v₂) :: ys => k₁ == k₂ && Val.beq v₁ v₂ && Val.beqPairs xs ys
  | _, _ => false

end

def Val.isDict : Val → Bool
  | .dict _ => true
  | _ => false

def Val.isList : Val → Bool
  | .list _ => true
  | _ => false

def Val.isStr : Val → Bool
  | .str _ => true
  | _ => false

def Val.isNone : Val → Bool
  | .none => true
  | _ => false

def Val.isBool : Val → Bool
  | .bool _ => true
  | _ => false

/-- Python truthiness of an embedded value. -/
def pyTruthy : Val → Bool
  | .none => false
  | .bool b => b
  | .int n => n != 0
  | .str s => s != ""
  | .list xs => !xs.isEmpty
  | .dict kvs => !kvs.isEmpty

/-- Shallow rendering of a value, used only for exception payloads whose
Python counterpart interpolates the value itself into the message (the exact
repr text is irrelevant to every claim). -/
def Val.render : Val → String
  | .none => "None"
  | .bool b => if b then "True" else "False"
  | .int n => toString n
  | .str s => s
  | .list _ => "[...]"
  | .dict _ => "dict"

/-- Payload used when a Python `MissingKeyError(t)` receives a value: a
string is passed through, anything else is rendered. -/
def Val.asKeyString : Val → String
  | .str s => s
  | v => v.render

/-- Embedded Python exceptions.  The first four mirror the validation error
classes in src/exceptions (payloads are the constructor arguments); the rest
are the builtin exceptions reachable in the validators. -/
inductive PyErr where
  | missingKey (key : String)
  | emptyValue (attr key : String)
  | invalidFormat (key expected : String)
  | invalidKey (key validKeys : String)
  | valueError (msg : String)
  | typeError (msg : String)
  | keyError (key : String)
  | indexError (msg : String)
  | attributeError (msg : String)
deriving DecidableEq

theorem ebind_ok {α β : Type} (a : α) (f : α → Except PyErr β) :
    (Except.ok a >>= f) = f a := rfl

theorem ebind_err {α β : Type} (e : PyErr) (f : α → Except PyErr β) :
    ((Except.error e : Except PyErr α) >>= f) = Except.error e := rfl

theorem epure {α : Type} (a : α) : (pure a : Except PyErr α) = Except.ok a := rfl

/-- Python `container.get(key, default)` (two-argument form): the default is
used only when the key is absent; a stored `None` is returned as such.
Calling `.get` on a non-dict raises `AttributeError`. -/
def pyGetDefault (v : Val) (key : String) (default : Val) : Except PyErr Val :=
  match v with
  | .dict kvs =>
    match lookupKV kvs key with
    | some x => .ok x
    | Option.none => .ok default
  | _ => .error (.attributeError "object has no attribute get")

/-- Python `container.get(key)` (one-argument form): absent keys yield `None`. -/
def pyGet (v : Val) (key : String) : Except PyErr Val :=
  pyGetDefault v key Val.none

/-- Python `container[key]` with a string key: dict lookup (KeyError when
absent); subscripting a string or anything else with a string key raises
`TypeError`. -/
def pySubscript (v : Val) (key : String) : Except PyErr Val :=
  match v with
  | .dict kvs =>
    match lookupKV kvs key with
    | some x => .ok x
    | Option.none => .error (.keyError key)
  | .str _ => .error (.typeError "string indices must be integers")
  | _ => .error (.typeError "object is not subscriptable")

/-- Python `list(container.keys())`. -/
def pyKeys (v : Val) : Except PyErr (List String) :=
  match v with
  | .dict kvs => .ok (kvs.map Prod.fst)
  | _ => .error (.attributeError "object has no attribute keys")

/-- Python `container.values()`. -/
def pyValues (v : Val) : Except PyErr (List Val) :=
  match v with
  | .dict kvs => .ok (kvs.map Prod.snd)
  | _ => .error (.attributeError "object has no attribute values")

/-- Python `container.items()`. -/
def pyItems (v : Val) : Except PyErr (List (String × Val)) :=
  match v with
  | .dict kvs => .ok kvs
  | _ => .error (.attributeError "object has no attribute items")

/-- Membership of the characters of `n` as a contiguous run in `h`. -/
def charsAgree : List Char → List Char → Bool
  | [], _ => true
  | _ :: _, [] => false
  | a :: as, b :: bs => a == b && charsAgree as bs

/-- Substring test used by Python `in` on strings. -/
def hasSub (n : List Char) : List Char → Bool
  | [] => n.isEmpty
  | c :: t => charsAgree n (c :: t) || hasSub n t

/-- Python `key in container` for a string key: dict key membership, list
element membership, substring test on strings, `TypeError` otherwise. -/
def pyContains (v : Val) (key : String) : Except PyErr Bool :=
  match v with
  | .dict kvs => .ok (lookupKV kvs key).isSome
  | .list xs => .ok (xs.any (fun x => Val.beq x (.str key)))
  | .str s => .ok (hasSub key.data s.data)
  | _ => .error (.typeError "argument is not iterable")

/-- Key membership on a value already known to be a dict. -/
def Val.hasKey (v : Val) (key : String) : Bool :=
  match v with
  | .dict kvs => (lookupKV kvs key).isSome
  | _ => false

/-- Python hashing of a value: lists and dicts are unhashable. -/
def pyHashable (v : Val) : Except PyErr Val :=
  match v with
  | .list _ => .error (.typeError "unhashable type: list")
  | .dict _ => .error (.typeError "unhashable type: dict")
  | _ => .ok v

/-- Python `x in container` for an arbitrary value `x`: dict containers hash
`x` first (so unhashable `x` raises `TypeError`) and compare against keys,
list containers compare elementwise, string containers require a string. -/
def pyInVal (x : Val) (container : Val) : Except PyErr Bool :=
  match container with
  | .dict kvs =>
    match x with
    | .list _ => .error (.typeError "unhashable type: list")
    | .dict _ => .error (.typeError "unhashable type: dict")
    | .str s => .ok (lookupKV kvs s).isSome
    | _ => .ok false
  | .list xs => .ok (xs.any (fun y => Val.beq y x))
  | .str s =>
    match x with
    | .str n => .ok (hasSub n.data s.data)
    | _ => .error (.typeError "in string requires string as left operand")
  | _ => .error (.typeError "argument is not iterable")

/-- Python iteration over a container: list elements, dict keys, string
characters; `TypeError` otherwise. -/
def pyIter (v : Val) : Except PyErr (List Val) :=
  match v with
  | .list xs => .ok xs
  | .dict kvs => .ok (kvs.map (fun p => Val.str p.fst))
  | .str s => .ok (s.data.map (fun c => Val.str (String.mk [c])))
  | _ => .error (.typeError "object is not iterable")

/-- Python `sep.join(parts)`: every part must be a string. -/
def pyJoin (sep : String) : List Val → Except PyErr String
  | [] => .ok ""
  | [.str s] => .ok s
  | .str s :: rest => do
    let r ← pyJoin sep rest
    pure (s ++ sep ++ r)
  | _ => .error (.typeError "sequence item: expected str instance")

/-- Python set `add` on a set modelled as a duplicate-free list. -/
def setAdd (l : List String) (x : String) : List String :=
  if l.contains x then l else l ++ [x]

/-! Regular expressions, embedding the `re` patterns composed in
src/validator/semantics_validator.py and schema_validator.py.  Matching is by
Brzozowski derivatives, which decides exactly language membership; with the
fully anchored patterns the code builds, `re.match` succeeds exactly on
language membership as well (Python backtracking is exhaustive). -/

inductive RE where
  | fail
  | eps
  | cls (p : Char → Bool)
  | cat (a b : RE)
  | alt (a b : RE)
  | star (r : RE)

def RE.nullable : RE → Bool
  | .fail => false
  | .eps => true
  | .cls _ => false
  | .cat a b => a.nullable && b.nullable
  | .alt a b => a.nullable || b.nullable
  | .star _ => true

/-- Smart concatenation (prunes the empty language and the empty word). -/
def RE.scat : RE → RE → RE
  | .fail, _ => .fail
  | .eps, b => b
  | a, b =>
    match b with
    | .fail => .fail
    | .eps => a
    | b => .cat a b

/-- Smart alternation (prunes the empty language). -/
def RE.salt : RE → RE → RE
  | .fail, b => b
  | a, b =>
    match b with
    | .fail => a
    | b => .alt a b

def RE.deriv : RE → Char → RE
  | .fail, _ => .fail
  | .eps, _ => .fail
  | .cls p, c => if p c then .eps else .fail
  | .cat a b, c =>
    if a.nullable then RE.salt (RE.scat (a.deriv c) b) (b.deriv c)
    else RE.scat (a.deriv c) b
  | .alt a b, c => RE.salt (a.deriv c) (b.deriv c)
  | .star r, c => RE.scat (r.deriv c) (.star r)

/-- Anchored match (`^pattern$`) of a whole string. -/
def reMatch (r : RE) (s : String) : Bool :=
  (s.data.foldl RE.deriv r).nullable

/-- ASCII model of Python regex `\w`. -/
def isWordChar (c : Char) : Bool := c.isAlphanum || c == '_'

/-- ASCII model of Python regex `\s`. -/
def isSpaceChar (c : Char) : Bool :=
  c == ' ' || c == '\t' || c == '\n' || c == '\r' || c == '\x0b' || c == '\x0c'

/-- `r+` -/
def RE.plus (r : RE) : RE := .cat r (.star r)

/-- `\s*` -/
def wsStar : RE := .star (.cls isSpaceChar)

/-- A literal, matched case-insensitively (the calculation pattern is used
with `re.IGNORECASE`). -/
def litCI (s : String) : RE :=
  s.data.foldr (fun c r => RE.cat (RE.cls (fun x => x.toLower == c.toLower)) r) .eps

/-- A case-sensitive literal. -/
def litCS (s : String) : RE :=
  s.data.foldr (fun c r => RE.cat (RE.cls (fun x => x == c)) r) .eps

/-- `'|'.join` of sub-patterns. -/
def altList : List RE → RE
  | [] => .fail
  | [r] => r
  | r :: rs => .alt r (altList rs)

namespace SemanticsValidator

/-- Character class of `basic_expr_pattern = r'[\w\s\[\]\+\-\*\/\(\)]+'`:
word characters, whitespace, square brackets, the four arithmetic operators,
and parentheses. -/
def basicExprChar (c : Char) : Bool :=
  isWordChar c || isSpaceChar c || c == '[' || c == ']' ||
    c == '+' || c == '-' || c == '*' || c == '/' || c == '(' || c == ')'

/-- `basic_expr_pattern` of `_validate_calculation`. -/
def basic_expr_pattern : RE := RE.plus (.cls basicExprChar)

/-- `_build_pattern(operators)` = `r'\s*(' + '|'.join(operators) + r')\s*'`. -/
def build_pattern (operators : List String) : RE :=
  RE.cat wsStar (RE.cat (altList (operators.map litCI)) wsStar)

def logical_pattern : RE := build_pattern ["AND", "OR", "NOT"]

def comparison_pattern : RE := build_pattern ["=", "!=", "<", ">", "<=", ">="]

/-- The flattened function vocabulary of `_build_function_pattern`, in the
order of `supported_functions.values()`. -/
def supportedFunctionNames : List String :=
  ["SUM", "AVG", "COUNT", "MAX", "MIN",
   "UPPER", "LOWER", "CONCAT", "SUBSTRING", "TRIM", "LENGTH",
   "NOW", "DATE", "ROUND",
   "CASE", "COALESCE", "NULLIF"]

/-- `_build_function_pattern`: `r'\s*(' + '|'.join(func + '\s*\(\s*' + basic
+ '\s*\)') + r')\s*'`. -/
def build_function_pattern (basic : RE) : RE :=
  RE.cat wsStar
    (RE.cat
      (altList (supportedFunctionNames.map (fun func =>
        RE.cat (litCI func)
          (RE.cat wsStar
            (RE.cat (.cls (fun c => c == '('))
              (RE.cat wsStar
                (RE.cat basic
                  (RE.cat wsStar (.cls (fun c => c == ')'))))))))))
      wsStar)

def function_pattern : RE := build_function_pattern basic_expr_pattern

/-- `nested_function_pattern = '(' + function_pattern + '|' + basic + ')'`
from `_build_complete_pattern`. -/
def nested_function_pattern : RE := RE.alt function_pattern basic_expr_pattern

/-- `_build_complete_pattern`: `^( nested (\s* comparison nested)* (\s*
logical nested)* $ )$` (the anchors are implicit in `reMatch`). -/
def build_complete_pattern (func basic cmp logical : RE) : RE :=
  let nested : RE := RE.alt func basic
  RE.cat nested
    (RE.cat (.star (RE.cat wsStar (RE.cat cmp nested)))
            (.star (RE.cat wsStar (RE.cat logical nested))))

def complete_pattern : RE :=
  build_complete_pattern function_pattern basic_expr_pattern
    comparison_pattern logical_pattern

/-- `_validate_calculation`: a non-string raises `InvalidFormatError(value,
'string')`; a string not matching the composed pattern raises
`InvalidFormatError('calculation', 'valid calculation format')`. -/
def validate_calculation (calculation : Val) : Except PyErr Unit :=
  match calculation with
  | .str s =>
    if reMatch complete_pattern s then .ok ()
    else .error (.invalidFormat "calculation" "valid calculation format")
  | v => .error (.invalidFormat v.render "string")

end SemanticsValidator

/-! Embedding of src/validator/schema_validator.py. -/

namespace SchemaValidator

/-- `re.match(r'^[A-Za-z_][A-Za-z0-9_]*$', column_id)` of
`_check_column_format` (this pattern is pure ASCII in the source). -/
def columnIdFormatOk (s : String) : Bool :=
  match s.data with
  | [] => false
  | c :: cs => (c.isAlpha || c == '_') && cs.all (fun x => x.isAlphanum || x == '_')

/-- Character class `[\w\.]` of the join-condition pattern. -/
def wordDotChar (c : Char) : Bool := isWordChar c || c == '.'

/-- `r'^[\w\.]+ = [\w\.]+$'` of `_validate_joins`. -/
def join_condition_pattern : RE :=
  RE.cat (RE.plus (.cls wordDotChar)) (RE.cat (litCS " = ") (RE.plus (.cls wordDotChar)))

/-- Python `s.strip()` being empty: every character is whitespace. -/
def blankStr (s : String) : Bool := s.data.all isSpaceChar

/-- `_check_required_keys`: each of `subject_area`, `table_info`, `columns`
must be `in` the schema, else `MissingKeyError(key)`. -/
def check_required_keys (schema : Val) : Except PyErr Unit :=
  ["subject_area", "table_info", "columns"].forM (fun key => do
    let b ← pyContains schema key
    if b then pure () else Except.error (.missingKey key))

/-- `_validate_joins`: `joins` must be a list; an empty list is accepted;
every condition must be a string matching the join-condition pattern. -/
def validate_joins (joins : Val) : Except PyErr Unit :=
  match joins with
  | .list conds =>
    if conds.isEmpty then .ok ()
    else conds.forM (fun condition =>
      match condition with
      | .str s =>
        if reMatch join_condition_pattern s then pure ()
        else Except.error (.invalidFormat "join condition"
          "string of format table.column = table.column")
      | _ => Except.error (.invalidFormat "join condition"
          "string of format table.column = table.column"))
  | _ => .error (.invalidFormat "joins" "list")

/-- `_validate_table_entry`: a table entry must be a dict with a non-`None`
`table` and a `joins` key; a `joins` list may not contain dict elements; the
join conditions are then validated. -/
def validate_table_entry (table : Val) : Except PyErr Unit := do
  if !table.isDict then Except.error (.invalidFormat "table_info entry" "dictionary")
  else do
    let hasTable ← pyContains table "table"
    if !hasTable then Except.error (.missingKey "table")
    else do
      let tv ← pySubscript table "table"
      if tv.isNone then Except.error (.emptyValue "table" "table_info")
      else do
        let hasJoins ← pyContains table "joins"
        if !hasJoins then Except.error (.missingKey "joins")
        else do
          let joins ← pySubscript table "joins"
          match joins with
          | .list js =>
            if js.any Val.isDict then
              Except.error (.invalidFormat "joins" "list of strings")
            else validate_joins joins
          | _ => validate_joins joins

/-- `_validate_table_info`: the table info must be a list, and every entry
must validate. -/
def validate_table_info (tableInfo : Val) : Except PyErr Unit :=
  match tableInfo with
  | .list tables => tables.forM validate_table_entry
  | _ => .error (.invalidFormat "table_info" "list")

/-- `{table['table'] for table in self.schema['table_info']}` of
`_validate_columns`: iterate the raw `table_info` value, subscript each entry
with `table`, and hash the result into a set (unhashable values raise
`TypeError`, as in Python). -/
def tables_in_schema (schema : Val) : Except PyErr (List Val) := do
  let ti ← pySubscript schema "table_info"
  let entries ← pyIter ti
  entries.mapM (fun t => do
    let tv ← pySubscript t "table"
    pyHashable tv)

/-- `validate_table_reference`: a string must be a member of the table-name
set (else `MissingKeyError`); a list is checked elementwise; any other shape
raises `InvalidFormatError('table', 'string or list of strings')`. -/
def validate_table_reference (table : Val) (tablesInSchema : List Val) :
    Except PyErr Unit :=
  match table with
  | .str t =>
    if tablesInSchema.any (fun x => Val.beq x (.str t)) then .ok ()
    else .error (.missingKey t)
  | .list ts =>
    ts.forM (fun tv => do
      let h ← pyHashable tv
      if tablesInSchema.any (fun x => Val.beq x h) then pure ()
      else Except.error (.missingKey h.asKeyString))
  | _ => .error (.invalidFormat "table" "string or list of strings")

/-- `_check_unique_column_id`: raise `InvalidKeyError` on an identifier
collision, otherwise register the identifier in the caller-supplied set. -/
def check_unique_column_id (columnId : String) (columnIds : List String) :
    Except PyErr (List String) :=
  if columnIds.contains columnId then
    .error (.invalidKey columnId "unique column IDs")
  else .ok (setAdd columnIds columnId)

/-- `_check_column_format`. -/
def check_column_format (columnId : String) : Except PyErr Unit :=
  if columnIdFormatOk columnId then .ok ()
  else .error (.invalidFormat columnId "valid format")

/-- `_check_required_column_keys`: `name`, `type`, `column`, `desc` must be
present and truthy, else `EmptyValueError(column_id, key)`. -/
def check_required_column_keys (columnId : String) (column : Val) :
    Except PyErr Unit :=
  ["name", "type", "column", "desc"].forM (fun key =>
    if !(column.hasKey key) then Except.error (.emptyValue columnId key)
    else do
      let v ← pySubscript column key
      if !(pyTruthy v) then Except.error (.emptyValue columnId key)
      else pure ())

/-- The `expected_keys` list of `_check_indentation` (note: it does NOT
contain `table`). -/
def expectedColumnKeys : List String :=
  ["name", "type", "column", "desc", "primary_key"]

/-- Rendering of the `expected_keys` list used as an `InvalidKeyError`
payload (Python interpolates the list; quotes are dropped here). -/
def expectedColumnKeysRendered : String :=
  "[name, type, column, desc, primary_key]"

/-- `_check_indentation`: every key of the column must be one of
`expected_keys`, else `InvalidKeyError(key, expected_keys)`; afterwards any
present expected key whose value is `None` or a blank string raises
`EmptyValueError(column_id, key)`. -/
def check_indentation (columnId : String) (column : Val) : Except PyErr Unit := do
  let keys ← pyKeys column
  keys.forM (fun key =>
    if expectedColumnKeys.contains key then pure ()
    else Except.error (.invalidKey key expectedColumnKeysRendered))
  expectedColumnKeys.forM (fun key =>
    if column.hasKey key then do
      let v ← pySubscript column key
      if v.isNone then Except.error (.emptyValue columnId key)
      else
        match v with
        | .str s =>
          if blankStr s then Except.error (.emptyValue columnId key) else pure ()
        | _ => pure ()
    else pure ())

/-- `_validate_column`: structure checks, the unique/format/required-keys/
indentation checks, the `primary_key` boolean check, and (only if a `table`
key is present) the table-reference check.  Returns the updated identifier
set (mutated inside `_check_unique_column_id`). -/
def validate_column (columnId : String) (column : Val) (columnIds : List String)
    (tablesInSchema : List Val) : Except PyErr (List String) := do
  if !column.isDict then Except.error (.invalidFormat columnId "dictionary")
  else do
    let vals ← pyValues column
    if vals.any Val.isDict then
      Except.error (.invalidFormat columnId "no nested dictionaries allowed")
    else do
      let columnIds' ← check_unique_column_id columnId columnIds
      check_column_format columnId
      check_required_column_keys columnId column
      check_indentation columnId column
      if column.hasKey "primary_key" then do
        let pk ← pySubscript column "primary_key"
        if !pk.isBool then Except.error (.invalidFormat "primary_key" "boolean")
        else pure ()
      else pure ()
      if column.hasKey "table" then do
        let tv ← pySubscript column "table"
        validate_table_reference tv tablesInSchema
      else pure ()
      pure columnIds'

/-- The `for column_id, column in columns.items()` loop of
`_validate_columns`, threading the `column_ids` set (the loop re-checks
membership, calls `_validate_column`, then adds the identifier). -/
def columnsLoop (tablesInSchema : List Val) :
    List (String × Val) → List String → Except PyErr Unit
  | [], _ => .ok ()
  | (columnId, column) :: rest, columnIds =>
    if columnIds.contains columnId then
      .error (.invalidKey columnId "unique column IDs")
    else do
      let columnIds' ← validate_column columnId column columnIds tablesInSchema
      columnsLoop tablesInSchema rest (setAdd columnIds' columnId)

/-- `_validate_columns`: `columns` must be a dict; the table-name set is
computed from the raw schema; every column is validated in order. -/
def validate_columns (schema columns : Val) : Except PyErr Unit := do
  if !columns.isDict then Except.error (.invalidFormat "columns" "dictionary")
  else do
    let tablesInSchema ← tables_in_schema schema
    let items ← pyItems columns
    columnsLoop tablesInSchema items []

/-- The `try` body of `SchemaValidator.validate`. -/
def validate_body (schema : Val) : Except PyErr Unit := do
  check_required_keys schema
  let ti ← pySubscript schema "table_info"
  validate_table_info ti
  let cols ← pySubscript schema "columns"
  validate_columns schema cols

/-- Per-document outcome reported (logged) by `SchemaValidator.validate`. -/
inductive Outcome where
  | passed
  | violation (e : PyErr)
  | unexpected (e : PyErr)
deriving DecidableEq

/-- The handler chain of `SchemaValidator.validate`: four `except` clauses
for the recognized error classes, then `except Exception` for everything
else.  A handler returning `Option.none` would re-raise. -/
def exceptClauses (e : PyErr) : Option Outcome :=
  match e with
  | .missingKey _ => some (.violation e)
  | .emptyValue _ _ => some (.violation e)
  | .invalidFormat _ _ => some (.violation e)
  | .invalidKey _ _ => some (.violation e)
  | _ => some (.unexpected e)

/-- Python `try`/`except`: a handled exception becomes a normal return, an
unhandled one propagates. -/
def pyTry (body : Except PyErr Unit) (handlers : PyErr → Option Outcome) :
    Except PyErr Outcome :=
  match body with
  | .ok _ => .ok .passed
  | .error e =>
    match handlers e with
    | some o => .ok o
    | Option.none => .error e

/-- `SchemaValidator.validate` as called by main.py: runs the body under the
handler chain.  (`schema_name` only decorates log messages and does not
affect the outcome.) -/
def validate (schema : Val) : Except PyErr Outcome :=
  pyTry (validate_body schema) exceptClauses

end SchemaValidator

/-! Embedding of src/validator/semantics_validator.py. -/

/-- Helper for `splitOnChar`, accumulating the current fragment. -/
def splitOnCharAux (sep : Char) : List Char → List Char → List (List Char)
  | [], acc => [acc.reverse]
  | x :: xs, acc =>
    if x == sep then acc.reverse :: splitOnCharAux sep xs []
    else splitOnCharAux sep xs (x :: acc)

/-- Python `str.split(sep)` for a one-character separator (the code only
splits on `'.'`, and path components on `'/'`). -/
def splitOnChar (s : String) (sep : Char) : List String :=
  (splitOnCharAux sep s.data []).map String.mk

/-- `pathlib.Path(s).stem`: the final path component without its last
suffix (CPython keeps the whole name when the last dot is at position 0 or
at the very end).  The repository only ever passes plain file names from
`os.listdir`. -/
def pathStem (s : String) : String :=
  let name := (splitOnChar s '/').getLastD s
  let cs := name.data
  let dotIdxs := (List.range cs.length).filter (fun i => cs.get? i == some '.')
  match dotIdxs.getLast? with
  | some i => if 0 < i && i < cs.length - 1 then String.mk (cs.take i) else name
  | Option.none => name

/-- Python `lst[i]`: `IndexError` when out of range. -/
def pyIndexList {α : Type} (l : List α) (i : Nat) : Except PyErr α :=
  match l.get? i with
  | some a => .ok a
  | Option.none => .error (.indexError "list index out of range")

namespace SemanticsValidator

/-- `_check_required_keys`: `folder` and `type` must be present (else
`ValueError`), and at least one of `attributes`/`metrics` must be truthy
(else `MissingKeyError`). -/
def check_required_keys (semantics : Val) : Except PyErr Unit := do
  ["folder", "type"].forM (fun key => do
    let b ← pyContains semantics key
    if b then pure ()
    else Except.error (.valueError ("Missing required key: " ++ key ++ " in the semantics.")))
  let attrs ← pyGet semantics "attributes"
  let metrics ← pyGet semantics "metrics"
  if !(pyTruthy attrs) && !(pyTruthy metrics) then
    Except.error (.missingKey "At least one of attributes or metrics must be present.")
  else pure ()

/-- `re.match(r'^schema\.\w+$', key)` of `_validate_source`. -/
def sourceKeyFormatOk (key : String) : Bool :=
  match key.data with
  | 's' :: 'c' :: 'h' :: 'e' :: 'm' :: 'a' :: '.' :: rest =>
    !rest.isEmpty && rest.all isWordChar
  | _ => false

/-- `_validate_source`: when `source` is not `None` it must be a dict; each
key must match `^schema\.\w+$`; each value must be a dict with a `columns`
key whose value is a list of strings. -/
def validate_source (source : Val) : Except PyErr Unit :=
  if source.isNone then .ok ()
  else
    match source with
    | .dict kvs =>
      kvs.forM (fun kv => do
        let key := kv.fst
        let value := kv.snd
        if !(sourceKeyFormatOk key) then
          Except.error (.invalidKey key "Expected format schema.<name>")
        else if !(value.isDict && value.hasKey "columns") then
          Except.error (.invalidFormat key "must be a dictionary containing a columns key")
        else do
          let columns ← pySubscript value "columns"
          match columns with
          | .list cols =>
            if cols.all Val.isStr then pure ()
            else Except.error (PyErr.invalidFormat "columns" ("a list of strings for source " ++ key))
          | _ => Except.error (PyErr.invalidFormat "columns" ("a list of strings for source " ++ key)))
    | _ => .error (.invalidFormat "source" "dictionary")

/-- `_validate_filters`: filters must be a list whose conditions are all
strings. -/
def validate_filters (filters : Val) : Except PyErr Unit :=
  match filters with
  | .list conds =>
    conds.forM (fun condition =>
      if condition.isStr then pure ()
      else Except.error (.invalidFormat "filter condition" "string"))
  | _ => .error (.invalidFormat "filter" "list")

/-- `_validate_attribute`: shape and non-empty checks, the calculation
grammar on a present `calculation`, and the filter check on a present
`filter`.  NOTE (faithful to the source): `_validate_attribute_keys` is
never invoked here, so unexpected attribute keys are not rejected. -/
def validate_attribute (attrKey : String) (attribute' : Val) (schema : String) :
    Except PyErr Unit := do
  let _ := schema
  if !attribute'.isDict then Except.error (.invalidFormat attrKey "dictionary")
  else do
    if attribute'.hasKey "name" then do
      let v ← pySubscript attribute' "name"
      if !(pyTruthy v) then Except.error (.emptyValue attrKey "name") else pure ()
    else pure ()
    if attribute'.hasKey "desc" then do
      let v ← pySubscript attribute' "desc"
      if !(pyTruthy v) then Except.error (.emptyValue attrKey "desc") else pure ()
    else pure ()
    if attribute'.hasKey "calculation" then do
      let v ← pySubscript attribute' "calculation"
      if !(pyTruthy v) then Except.error (.emptyValue attrKey "calculation") else pure ()
    else pure ()
    if attribute'.hasKey "calculation" then do
      let c ← pySubscript attribute' "calculation"
      validate_calculation c
    else pure ()
    if attribute'.hasKey "filter" then do
      let f ← pySubscript attribute' "filter"
      validate_filters f
    else pure ()

/-- `_validate_attributes`: attributes must be a dict; each entry is
validated. -/
def validate_attributes (attributes : Val) (schema : String) : Except PyErr Unit :=
  match attributes with
  | .dict kvs => kvs.forM (fun kv => validate_attribute kv.fst kv.snd schema)
  | v => .error (.invalidFormat v.render "dictionary")

/-- `_validate_attribute_keys` (defined in the source but never called):
only `name, desc, calculation, filter, function, synonym` are allowed. -/
def validate_attribute_keys (attrKey : String) (attribute' : Val) :
    Except PyErr Unit := do
  let _ := attrKey
  let keys ← pyKeys attribute'
  keys.forM (fun key =>
    if ["name", "desc", "calculation", "filter", "function", "synonym"].contains key
    then pure ()
    else Except.error
      (.invalidKey key "[name, desc, calculation, filter, function, synonym]"))

/-- `_validate_metric_keys`: only `name, calculation, function, desc,
filter, synonym` are allowed in a metric. -/
def validate_metric_keys (metricKey : String) (metric : Val) : Except PyErr Unit := do
  let _ := metricKey
  let keys ← pyKeys metric
  keys.forM (fun key =>
    if ["name", "calculation", "function", "desc", "filter", "synonym"].contains key
    then pure ()
    else Except.error
      (.invalidKey key "[name, calculation, function, desc, filter, synonym]"))

/-- `_validate_metric`.  The `schema` argument is the schema NAME string
(`validate` passes `schema_key.split('.')[1]`), so the Python expression
`metric_key not in schema['columns']` in the name-or-calculation branch
subscripts a `str` with `'columns'` and raises `TypeError` whenever that
branch is reached. -/
def validate_metric (metricKey : String) (metric : Val) (schema : String) :
    Except PyErr Unit := do
  let _ := schema
  if !metric.isDict then Except.error (.invalidFormat metricKey "dictionary")
  else do
    if !(metric.hasKey "name") || !(metric.hasKey "calculation") then do
      let cols ← pySubscript (Val.str schema) "columns"
      let b ← pyInVal (.str metricKey) cols
      if !b then Except.error (.missingKey "name or calculation") else pure ()
    else pure ()
    if metric.hasKey "name" then do
      let v ← pySubscript metric "name"
      if !(pyTruthy v) then Except.error (.emptyValue metricKey "name") else pure ()
    else pure ()
    if metric.hasKey "calculation" then do
      let v ← pySubscript metric "calculation"
      if !(pyTruthy v) then Except.error (.emptyValue metricKey "calculation") else pure ()
    else pure ()
    if metric.hasKey "function" then do
      let f ← pySubscript metric "function"
      if !f.isStr then Except.error (.emptyValue metricKey "function") else pure ()
    else pure ()
    let c ← pySubscript metric "calculation"
    validate_calculation c
    validate_metric_keys metricKey metric

/-- `_validate_metrics`: metrics must be a dict; each entry is validated. -/
def validate_metrics (metrics : Val) (schema : String) : Except PyErr Unit :=
  match metrics with
  | .dict kvs => kvs.forM (fun kv => validate_metric kv.fst kv.snd schema)
  | v => .error (.invalidFormat v.render "dictionary")

/-- The `missing_columns` list comprehension of `validate_referenced_columns`
(`[col for col in referenced_columns if col not in schema_columns]`). -/
def missingColumns (cols : List Val) (schemaColumns : Val) :
    Except PyErr (List Val) :=
  match cols with
  | [] => .ok []
  | c :: rest => do
    let b ← pyInVal c schemaColumns
    let tail ← missingColumns rest schemaColumns
    pure (if b then tail else c :: tail)

/-- `validate_referenced_columns`: every referenced column must exist in the
resolved schema's `columns`; all misses are accumulated and raised in a
single `MissingKeyError` joining them with a comma. -/
def validate_referenced_columns (schemaName : String) (schema : Val)
    (referencedColumns : Val) : Except PyErr Unit := do
  let _ := schemaName
  let schemaColumns ← pyGetDefault schema "columns" (Val.list [])
  let cols ← pyIter referencedColumns
  let missing ← missingColumns cols schemaColumns
  if !missing.isEmpty then do
    let joined ← pyJoin ", " missing
    Except.error (.missingKey ("Columns missing in schema: " ++ joined))
  else pure ()

/-- `validate_semantics`: runs `_check_required_keys` and `_validate_source`
inside `try`/`except ValueError`/`except Exception`; every raised error is
caught and logged, so the method reports at most one logged error record and
never raises. -/
def validate_semantics (semantics : Val) : Option PyErr :=
  match (do
      check_required_keys semantics
      let source ← pyGet semantics "source"
      validate_source source : Except PyErr Unit) with
  | .ok _ => Option.none
  | .error e => some e

/-- The raising part of one iteration of the `for schema_key in
schema_references` loop of `SemanticsValidator.validate`: resolve the schema
by file stem (`schema_key.split('.')[1]`), extract the bound columns, and run
the referential, attribute and metric checks. -/
def process_source_key_checks (semantics source : Val)
    (files : List (String × Val)) (schemaKey : String) : Except PyErr Unit := do
  let schema ← pyIndexList (splitOnChar schemaKey '.') 1
  match files.find? (fun p => pathStem p.fst == schema) with
  | Option.none =>
    Except.error (.missingKey
      ("Schema " ++ schema ++ " referenced in source " ++ schemaKey ++ " not found."))
  | some (_, relevantSchema) => do
    let binding ← pySubscript source schemaKey
    let referencedColumns ← pySubscript binding "columns"
    validate_referenced_columns schema relevantSchema referencedColumns
    let attrs ← pyGetDefault semantics "attributes" (.dict [])
    validate_attributes attrs schema
    let metrics ← pyGetDefault semantics "metrics" (.dict [])
    validate_metrics metrics schema

/-- One full iteration of the loop: the raising checks, then the
`validate_semantics` call whose logged record is the iteration's result. -/
def process_source_key (semantics source : Val) (files : List (String × Val))
    (schemaKey : String) : Except PyErr (Option PyErr) := do
  process_source_key_checks semantics source files schemaKey
  pure (validate_semantics semantics)

/-- The whole `for schema_key in schema_references` loop, collecting the
per-iteration logged records of `validate_semantics`. -/
def runSourceKeys (semantics source : Val) (files : List (String × Val)) :
    List String → Except PyErr (List (Option PyErr))
  | [] => .ok []
  | key :: rest => do
    let r ← process_source_key semantics source files key
    let rs ← runSourceKeys semantics source files rest
    pure (r :: rs)

/-- `SemanticsValidator.validate(files)`: `files=None` and a missing or
empty `source` raise `MissingKeyError`; otherwise every source reference is
processed in order.  A normal return carries the list of logged
`validate_semantics` records (one per source key, `Option.none` = that
iteration logged a pass). -/
def validate (semantics : Val) (files : Option (List (String × Val))) :
    Except PyErr (List (Option PyErr)) := do
  match files with
  | Option.none => Except.error (.missingKey "No schema files initialized yet.")
  | some fs => do
    let source ← pyGet semantics "source"
    if source.isNone then Except.error (.missingKey "No source specified in semantics.")
    else do
      let schemaReferences ← pyKeys source
      if schemaReferences.isEmpty then
        Except.error (.missingKey "No schema reference found.")
      else runSourceKeys semantics source fs schemaReferences

/-- A semantics document's run reports a failing outcome when `validate`
either raises to its caller or logs at least one error record through
`validate_semantics`. -/
def reportsFailure (semantics : Val) (files : Option (List (String × Val))) : Bool :=
  match validate semantics files with
  | .error _ => true
  | .ok records => records.any Option.isSome

end SemanticsValidator

/-- Instance state of a `SchemaValidator` object (`schema_name`, `schema` are
set in `__init__` and never reassigned). -/
structure SchemaValidatorObj where
  schema_name : String
  schema : Val

/-- The `validate` method on a `SchemaValidator` object: computes the outcome
from `self.schema` and leaves the instance state untouched (the body never
assigns any `self` field; the `column_ids` set is a per-call local). -/
def SchemaValidatorObj.validateM (self : SchemaValidatorObj) :
    Except PyErr SchemaValidator.Outcome × SchemaValidatorObj :=
  (SchemaValidator.validate self.schema, self)

/-- Instance state of a `SemanticsValidator` object. -/
structure SemanticsValidatorObj where
  filename : String
  semantics : Val

/-- The `validate` method on a `SemanticsValidator` object: computes the
result from `self.semantics` and the supplied schema collection, leaving the
instance state untouched. -/
def SemanticsValidatorObj.validateM (self : SemanticsValidatorObj)
    (files : Option (List (String × Val))) :
    Except PyErr (List (Option PyErr)) × SemanticsValidatorObj :=
  (SemanticsValidator.validate self.semantics files, self)

/-! Concrete documents used by the claims (spec §8 example scenarios). -/

/-- Example scenario 1 of the spec: the sales schema with one `orders` table
and one `order_id` column carrying `table: orders` and `primary_key: true`. -/
def scenario1Schema : Val :=
  .dict [("subject_area", .str "sales"),
         ("table_info", .list [.dict [("table", .str "orders"), ("joins", .list [])]]),
         ("columns", .dict [("order_id", .dict
            [("name", .str "Order Id"), ("type", .str "int"),
             ("column", .str "order_id"), ("desc", .str "id"),
             ("table", .str "orders"), ("primary_key", .bool true)])])]

/-- Scenario 1 with the column's `table` value naming `customers`, a table
absent from `table_info` (a dangling table reference). -/
def scenario1Dangling : Val :=
  .dict [("subject_area", .str "sales"),
         ("table_info", .list [.dict [("table", .str "orders"), ("joins", .list [])]]),
         ("columns", .dict [("order_id", .dict
            [("name", .str "Order Id"), ("type", .str "int"),
             ("column", .str "order_id"), ("desc", .str "id"),
             ("table", .str "customers"), ("primary_key", .bool true)])])]

/-- The loaded schema collection: scenario 1's schema under `orders.yml`. -/
def ordersFiles : List (String × Val) := [("orders.yml", scenario1Schema)]

/-- A semantics document that is valid except that attribute `region`
carries the unexpected key `bogus`. -/
def semWithExtraAttrKey : Val :=
  .dict [("folder", .str "f"), ("type", .str "fact"),
         ("source", .dict [("schema.orders", .dict [("columns", .list [.str "order_id"])])]),
         ("attributes", .dict [("region", .dict [("name", .str "Region"), ("bogus", .str "x")])]),
         ("metrics", .dict [("total_orders", .dict
            [("name", .str "Total Orders"), ("calculation", .str "COUNT(order_id)")])])]

/-- A semantics document missing the required top-level key `folder`. -/
def semMissingFolder : Val :=
  .dict [("type", .str "fact"),
         ("source", .dict [("schema.orders", .dict [("columns", .list [.str "order_id"])])]),
         ("attributes", .dict [("region", .dict [("name", .str "Region")])])]

/-- A semantics document whose source binding references the columns `oops`
and `gone`, absent from the resolved schema. -/
def semMissingColumns : Val :=
  .dict [("folder", .str "f"), ("type", .str "fact"),
         ("source", .dict [("schema.orders", .dict
            [("columns", .list [.str "order_id", .str "oops", .str "gone"])])]),
         ("metrics", .dict [("total_orders", .dict
            [("name", .str "Total Orders"), ("calculation", .str "COUNT(order_id)")])])]

/-- A semantics document whose source key `orders` has no `.` separator. -/
def semNoDotSourceKey : Val :=
  .dict [("folder", .str "f"), ("type", .str "fact"),
         ("source", .dict [("orders", .dict [("columns", .list [.str "order_id"])])]),
         ("attributes", .dict [("region", .dict [("name", .str "Region")])])]

/-! Claim theorems. -/

/-- Claim C1.  The claim states that scenario 1's schema passes
`SchemaValidator.validate`.  On the code it does not: the `expected_keys`
list of `_check_indentation` omits `table`, so the scenario-1 column (which
carries `table: orders`) is rejected with `InvalidKeyError('table', ...)`
and the validator logs an InvalidKey violation instead of a pass. -/
theorem claim1_scenario1_schema_rejected :
    SchemaValidator.validate scenario1Schema =
      .ok (.violation (.invalidKey "table" SchemaValidator.expectedColumnKeysRendered)) := rfl

/-- Claim C2.  The claim states the calculation grammar rejects unsupported
function names, unbalanced parentheses and dangling connectives.  On the
code it does not: the basic-expression character class of
`_validate_calculation` includes parentheses, so `FOOBAR(x)`, `((x` and
`COUNT(order_id) AND` each match the composed pattern as one basic
expression and are accepted, exactly like the genuinely supported
`SUM(revenue)`. -/
theorem claim2_grammar_accepts_unsupported_and_dangling :
    SemanticsValidator.validate_calculation (.str "SUM(revenue)") = .ok () ∧
    SemanticsValidator.validate_calculation (.str "FOOBAR(x)") = .ok () ∧
    SemanticsValidator.validate_calculation (.str "COUNT(order_id) AND") = .ok () ∧
    SemanticsValidator.validate_calculation (.str "((x") = .ok () :=
  ⟨rfl, rfl, rfl, rfl⟩

/-- Claim C3.  The claim states attributes with a key outside the closed set
fail with InvalidKey.  On the code they do not: `_validate_attribute` never
invokes `_validate_attribute_keys`, so a document whose attribute `region`
carries the unexpected key `bogus` validates cleanly end to end, even though
the (dead) key check would have raised `InvalidKeyError('bogus', ...)`. -/
theorem claim3_attribute_extra_key_not_rejected :
    SemanticsValidator.validate semWithExtraAttrKey (some ordersFiles) = .ok [Option.none] ∧
    SemanticsValidator.validate_attribute_keys "region"
        (.dict [("name", .str "Region"), ("bogus", .str "x")]) =
      .error (.invalidKey "bogus" "[name, desc, calculation, filter, function, synonym]") :=
  ⟨rfl, rfl⟩

/-- Claim C5.  The claim states a column whose `table` names a table absent
from `table_info` fails with MissingKey.  On the code the outcome is
InvalidKey on the key `table` itself: `_check_indentation` rejects any
column carrying a `table` key before `validate_table_reference` (which would
indeed report `MissingKeyError('customers')`) can run. -/
theorem claim5_dangling_table_reference_unreachable :
    SchemaValidator.validate scenario1Dangling =
      .ok (.violation (.invalidKey "table" SchemaValidator.expectedColumnKeysRendered)) ∧
    SchemaValidator.validate_table_reference (.str "customers") [.str "orders"] =
      .error (.missingKey "customers") :=
  ⟨rfl, rfl⟩

/-- Claim C6.  `SchemaValidator.validate` never propagates an exception to
its caller: for every input document the handler chain (four recognized
violation classes followed by `except Exception`) catches whatever the body
raises, and the call returns normally with an outcome. -/
theorem claim6_schema_validate_never_raises (schema : Val) :
    ∃ outcome, SchemaValidator.validate schema = .ok outcome := by
  unfold SchemaValidator.validate SchemaValidator.pyTry
  cases h : SchemaValidator.validate_body schema with
  | ok u => exact ⟨.passed, rfl⟩
  | error e => cases e <;> exact ⟨_, rfl⟩

/-- Claim C8 counterexample.  A metric lacking `calculation` (here with a
`name` supplied and the metric key a literal column of the resolved schema)
does fail — but with a `TypeError` raised by subscripting the schema-name
string with `'columns'` in the name-or-calculation branch, not at the
calculation grammar check (which would surface as the grammar InvalidFormat
or as a KeyError on the absent `calculation`). -/
theorem claim8_counterexample :
    SemanticsValidator.validate_metric "order_id"
        (.dict [("name", .str "Order Id")]) "orders" =
      .error (.typeError "string indices must be integers") ∧
    PyErr.typeError "string indices must be integers" ≠
      PyErr.invalidFormat "calculation" "valid calculation format" ∧
    PyErr.typeError "string indices must be integers" ≠ PyErr.keyError "calculation" :=
  ⟨rfl, by decide, by decide⟩

/-- Claim C8 (amended).  Every metric entry without a `calculation` key
fails metric validation — not at the grammar check, but earlier: the
name-or-calculation branch evaluates `schema['columns']` on the schema-name
string, raising a TypeError engine fault. -/
theorem claim8_metric_without_calculation_never_passes
    (metricKey : String) (kvs : List (String × Val)) (schemaName : String)
    (hnocalc : lookupKV kvs "calculation" = Option.none) :
    SemanticsValidator.validate_metric metricKey (.dict kvs) schemaName =
      .error (.typeError "string indices must be integers") := by
  unfold SemanticsValidator.validate_metric
  simp [Val.isDict, Val.hasKey, hnocalc, pySubscript, ebind_err]

/-- Claim C8 witness: the amended theorem applied to a concrete metric. -/
theorem claim8_witness :
    lookupKV [("name", Val.str "Total Orders")] "calculation" = Option.none ∧
    SemanticsValidator.validate_metric "total_orders"
        (.dict [("name", .str "Total Orders")]) "orders" =
      .error (.typeError "string indices must be integers") :=
  ⟨rfl, claim8_metric_without_calculation_never_passes "total_orders" _ "orders" rfl⟩

/-- Claim C9.  Validation is idempotent and deterministic: both validators
compute their outcome purely from the instance state (document) and the
supplied schema collection, the `validate` methods leave the instance state
unchanged, and re-invoking `validate` on the post-call state yields the same
outcome.  (Input documents are immutable `Val` values in this embedding,
matching the code, which only reads them.) -/
theorem claim9_validation_idempotent :
    ∀ (sv : SchemaValidatorObj) (mv : SemanticsValidatorObj)
      (files : Option (List (String × Val))),
      (sv.validateM.2.validateM.1 = sv.validateM.1 ∧ sv.validateM.2 = sv) ∧
      (((mv.validateM files).2.validateM files).1 = (mv.validateM files).1 ∧
        (mv.validateM files).2 = mv) :=
  fun _ _ _ => ⟨⟨rfl, rfl⟩, rfl, rfl⟩

/-! Helper lemmas about the semantics-validator loop, used by claims C4, C7
and C10. -/

/-- A loop iteration that returns normally returns exactly the
`validate_semantics` record of the document. -/
theorem process_source_key_ok (semantics source : Val) (files : List (String × Val))
    (schemaKey : String) (r : Option PyErr)
    (h : SemanticsValidator.process_source_key semantics source files schemaKey = .ok r) :
    r = SemanticsValidator.validate_semantics semantics := by
  unfold SemanticsValidator.process_source_key at h
  cases hc : SemanticsValidator.process_source_key_checks semantics source files schemaKey with
  | error e => rw [hc, ebind_err] at h; exact absurd h (by simp)
  | ok u => rw [hc, ebind_ok, epure] at h; exact (Except.ok.inj h).symm

/-- A loop run over a non-empty key list that returns normally returns the
`validate_semantics` record at its head. -/
theorem runSourceKeys_ok_cons (semantics source : Val) (files : List (String × Val))
    (key : String) (rest : List String) (records : List (Option PyErr))
    (h : SemanticsValidator.runSourceKeys semantics source files (key :: rest) = .ok records) :
    ∃ tail, records = SemanticsValidator.validate_semantics semantics :: tail := by
  unfold SemanticsValidator.runSourceKeys at h
  cases h1 : SemanticsValidator.process_source_key semantics source files key with
  | error e => rw [h1, ebind_err] at h; exact absurd h (by simp)
  | ok r =>
    rw [h1, ebind_ok] at h
    cases h2 : SemanticsValidator.runSourceKeys semantics source files rest with
    | error e => rw [h2, ebind_err] at h; exact absurd h (by simp)
    | ok rs =>
      rw [h2, ebind_ok, epure] at h
      refine ⟨rs, ?_⟩
      rw [← Except.ok.inj h, process_source_key_ok _ _ _ _ _ h1]

/-- `container.get(key)` on a dict returns the looked-up value, defaulting
to `None`. -/
theorem pyGet_dict (kvs : List (String × Val)) (key : String) :
    pyGet (.dict kvs) key = .ok ((lookupKV kvs key).getD Val.none) := by
  unfold pyGet pyGetDefault
  cases h : lookupKV kvs key <;> simp [h]

/-- When `folder` or `type` is absent, or both `attributes` and `metrics`
are falsy, `_check_required_keys` raises. -/
theorem check_required_keys_sem_error (kvs : List (String × Val))
    (hmiss : lookupKV kvs "folder" = Option.none ∨ lookupKV kvs "type" = Option.none ∨
      (pyTruthy ((lookupKV kvs "attributes").getD Val.none) = false ∧
       pyTruthy ((lookupKV kvs "metrics").getD Val.none) = false)) :
    ∃ e, SemanticsValidator.check_required_keys (.dict kvs) = .error e := by
  unfold SemanticsValidator.check_required_keys
  cases hf : lookupKV kvs "folder" with
  | none =>
    refine ⟨.valueError "Missing required key: folder in the semantics.", ?_⟩
    simp [List.forM, pyContains, hf, ebind_ok, ebind_err]
  | some vf =>
    cases ht : lookupKV kvs "type" with
    | none =>
      refine ⟨.valueError "Missing required key: type in the semantics.", ?_⟩
      simp [List.forM, pyContains, hf, ht, ebind_ok, ebind_err, epure]
    | some vt =>
      rcases hmiss with h | h | ⟨ha, hm⟩
      · rw [hf] at h; exact absurd h (by simp)
      · rw [ht] at h; exact absurd h (by simp)
      · refine ⟨.missingKey "At least one of attributes or metrics must be present.", ?_⟩
        simp [List.forM, pyContains, hf, ht, ebind_ok, ebind_err, epure, pyGet_dict, ha, hm]

/-- A `_check_required_keys` failure makes `validate_semantics` log exactly
that error record. -/
theorem validate_semantics_some (semantics : Val) (e : PyErr)
    (h : SemanticsValidator.check_required_keys semantics = .error e) :
    SemanticsValidator.validate_semantics semantics = some e := by
  unfold SemanticsValidator.validate_semantics
  rw [h, ebind_err]

/-- Claim C4.  Every semantics document (a mapping) missing the required
top-level key `folder` or `type`, or with both `attributes` and `metrics`
empty, gets a failing outcome reported: either `validate` raises to its
caller, or the loop reaches `validate_semantics`, whose
`_check_required_keys` raises first (aborting that document's remaining
checks) and whose handler logs the error record. -/
theorem claim4_missing_required_keys_reports_failure
    (semantics : Val) (files : Option (List (String × Val))) (kvs : List (String × Val))
    (hsem : semantics = .dict kvs)
    (hmiss : lookupKV kvs "folder" = Option.none ∨ lookupKV kvs "type" = Option.none ∨
      (pyTruthy ((lookupKV kvs "attributes").getD Val.none) = false ∧
       pyTruthy ((lookupKV kvs "metrics").getD Val.none) = false)) :
    SemanticsValidator.reportsFailure semantics files = true := by
  subst hsem
  obtain ⟨e, he⟩ := check_required_keys_sem_error kvs hmiss
  have hrec := validate_semantics_some _ _ he
  unfold SemanticsValidator.reportsFailure
  cases files with
  | none => simp [SemanticsValidator.validate]
  | some fs =>
    cases hv : SemanticsValidator.validate (.dict kvs) (some fs) with
    | error _ => rfl
    | ok records =>
      simp only [SemanticsValidator.validate] at hv
      rw [pyGet_dict, ebind_ok] at hv
      split at hv
      · simp at hv
      · cases cs0 : (lookupKV kvs "source").getD Val.none with
        | dict prs =>
          rw [cs0] at hv
          simp only [pyKeys, ebind_ok] at hv
          split at hv
          · simp at hv
          · cases prs with
            | nil => simp_all
            | cons p ps =>
              simp only [List.map] at hv
              obtain ⟨tail, htail⟩ := runSourceKeys_ok_cons _ _ _ _ _ _ hv
              rw [htail, hrec]
              simp
        | none => rw [cs0] at hv; simp [pyKeys, ebind_err] at hv
        | bool b => rw [cs0] at hv; simp [pyKeys, ebind_err] at hv
        | int n => rw [cs0] at hv; simp [pyKeys, ebind_err] at hv
        | str s => rw [cs0] at hv; simp [pyKeys, ebind_err] at hv
        | list xs => rw [cs0] at hv; simp [pyKeys, ebind_err] at hv

/-- Claim C4 witness: the theorem applied to a concrete document missing
`folder`. -/
theorem claim4_witness :
    SemanticsValidator.reportsFailure semMissingFolder (some ordersFiles) = true :=
  claim4_missing_required_keys_reports_failure semMissingFolder (some ordersFiles) _
    rfl (Or.inl rfl)

/-- Claim C7.  When the first source binding of a semantics document reaches
the referential check and some referenced columns are absent from the
resolved schema's `columns`, `validate` raises a single `MissingKeyError`
whose payload joins the complete batch of missing columns (the comprehension
collects every miss before raising). -/
theorem claim7_missing_columns_batched
    (semantics : Val) (kvs srcRest : List (String × Val)) (fs : List (String × Val))
    (key schemaName fileName : String) (binding relevantSchema refv scols : Val)
    (cols missing : List Val) (joined : String)
    (hsem : semantics = .dict kvs)
    (hsrc : lookupKV kvs "source" = some (.dict ((key, binding) :: srcRest)))
    (hsplit : (splitOnChar key '.').get? 1 = some schemaName)
    (hfind : fs.find? (fun p => pathStem p.fst == schemaName) = some (fileName, relevantSchema))
    (hbinding : pySubscript binding "columns" = .ok refv)
    (hscols : pyGetDefault relevantSchema "columns" (Val.list []) = .ok scols)
    (hiter : pyIter refv = .ok cols)
    (hmissing : SemanticsValidator.missingColumns cols scols = .ok missing)
    (hne : missing ≠ [])
    (hjoin : pyJoin ", " missing = .ok joined) :
    SemanticsValidator.validate semantics (some fs) =
      .error (.missingKey ("Columns missing in schema: " ++ joined)) := by
  subst hsem
  have hmt : missing.isEmpty = false := by
    cases missing
    · exact absurd rfl hne
    · rfl
  have hidx : pyIndexList (splitOnChar key '.') 1 = .ok schemaName := by
    unfold pyIndexList
    rw [hsplit]
  have hsub : pySubscript (.dict ((key, binding) :: srcRest)) key = .ok binding := by
    simp [pySubscript, lookupKV]
  have hvrc : SemanticsValidator.validate_referenced_columns schemaName relevantSchema refv
      = .error (.missingKey ("Columns missing in schema: " ++ joined)) := by
    unfold SemanticsValidator.validate_referenced_columns
    simp only [hscols, ebind_ok, hiter, hmissing, hmt, hjoin, Bool.not_false, if_true,
      ebind_err, ite_true]
  have hchecks : SemanticsValidator.process_source_key_checks (.dict kvs)
      (.dict ((key, binding) :: srcRest)) fs key =
      .error (.missingKey ("Columns missing in schema: " ++ joined)) := by
    unfold SemanticsValidator.process_source_key_checks
    simp only [hidx, ebind_ok, hfind, hsub, hbinding, hvrc, ebind_err]
  have hpsk : SemanticsValidator.process_source_key (.dict kvs)
      (.dict ((key, binding) :: srcRest)) fs key =
      .error (.missingKey ("Columns missing in schema: " ++ joined)) := by
    unfold SemanticsValidator.process_source_key
    rw [hchecks, ebind_err]
  have hrun : SemanticsValidator.runSourceKeys (.dict kvs)
      (.dict ((key, binding) :: srcRest)) fs (key :: srcRest.map Prod.fst) =
      .error (.missingKey ("Columns missing in schema: " ++ joined)) := by
    unfold SemanticsValidator.runSourceKeys
    rw [hpsk, ebind_err]
  simp only [SemanticsValidator.validate]
  simp only [pyGet_dict, hsrc, Option.getD_some, ebind_ok, Val.isNone, pyKeys,
    List.map, List.isEmpty, Bool.false_eq_true, if_false, ite_false, hrun]

/-- Claim C7 witness: the theorem applied to a document referencing the
absent columns `oops` and `gone`. -/
theorem claim7_witness :
    SemanticsValidator.validate semMissingColumns (some ordersFiles) =
      .error (.missingKey ("Columns missing in schema: " ++ "oops, gone")) :=
  claim7_missing_columns_batched semMissingColumns _ [] ordersFiles
    "schema.orders" "orders" "orders.yml"
    (.dict [("columns", .list [.str "order_id", .str "oops", .str "gone"])])
    scenario1Schema
    (.list [.str "order_id", .str "oops", .str "gone"])
    (.dict [("order_id", .dict
      [("name", .str "Order Id"), ("type", .str "int"),
       ("column", .str "order_id"), ("desc", .str "id"),
       ("table", .str "orders"), ("primary_key", .bool true)])])
    [.str "order_id", .str "oops", .str "gone"]
    [.str "oops", .str "gone"]
    "oops, gone"
    rfl rfl rfl rfl rfl rfl rfl rfl (List.cons_ne_nil _ _) rfl

/-- Claim C10.  When the first source key of a semantics document has no `.`
separator, resolution evaluates `schema_key.split('.')[1]` before the source
key-format check of `_validate_source` can ever run, and `validate` raises
an `IndexError` (an unrecognized engine fault, none of the four recognized
violation kinds). -/
theorem claim10_separatorless_source_key_index_fault
    (semantics : Val) (kvs srcRest : List (String × Val)) (fs : List (String × Val))
    (key : String) (binding : Val)
    (hsem : semantics = .dict kvs)
    (hsrc : lookupKV kvs "source" = some (.dict ((key, binding) :: srcRest)))
    (hnodot : (splitOnChar key '.').get? 1 = Option.none) :
    SemanticsValidator.validate semantics (some fs) =
      .error (.indexError "list index out of range") := by
  subst hsem
  have hidx : pyIndexList (splitOnChar key '.') 1 =
      .error (.indexError "list index out of range") := by
    unfold pyIndexList
    rw [hnodot]
  have hchecks : SemanticsValidator.process_source_key_checks (.dict kvs)
      (.dict ((key, binding) :: srcRest)) fs key =
      .error (.indexError "list index out of range") := by
    unfold SemanticsValidator.process_source_key_checks
    rw [hidx, ebind_err]
  have hpsk : SemanticsValidator.process_source_key (.dict kvs)
      (.dict ((key, binding) :: srcRest)) fs key =
      .error (.indexError "list index out of range") := by
    unfold SemanticsValidator.process_source_key
    rw [hchecks, ebind_err]
  have hrun : SemanticsValidator.runSourceKeys (.dict kvs)
      (.dict ((key, binding) :: srcRest)) fs (key :: srcRest.map Prod.fst) =
      .error (.indexError "list index out of range") := by
    unfold SemanticsValidator.runSourceKeys
    rw [hpsk, ebind_err]
  simp only [SemanticsValidator.validate]
  simp only [pyGet_dict, hsrc, Option.getD_some, ebind_ok, Val.isNone, pyKeys,
    List.map, List.isEmpty, Bool.false_eq_true, if_false, ite_false, hrun]

/-- Claim C10 witness: the theorem applied to a document whose source key is
the bare `orders`. -/
theorem claim10_witness :
    SemanticsValidator.validate semNoDotSourceKey (some ordersFiles) =
      .error (.indexError "list index out of range") :=
  claim10_separatorless_source_key_index_fault semNoDotSourceKey _ _ ordersFiles
    "orders" (.dict [("columns", .list [.str "order_id"])]) rfl rfl rfl
